import Mathlib

/-!
Shallow embedding of `docs/howtos/integrations/openlayer.ipynb`, a notebook
that builds a llama-index query engine over loaded documents, generates a
ragas evaluation dataset from a synthetic test dataframe, and uploads the
result to an Openlayer project.

The query engine's behaviour (`run`) is an external service and is modelled
as an arbitrary function parameter; everything the notebook itself computes
(response unpacking, dataset assembly, configuration literals, the order of
the script's SDK calls) is translated directly from the notebook cells.
-/

namespace Openlayer

/-- A llama-index node; `get_content` returns its text. -/
structure Node where
  content : String
deriving DecidableEq, Repr

def Node.get_content (n : Node) : String := n.content

/-- A source node attached to a query response (`response.source_nodes`). -/
structure SourceNode where
  node : Node
deriving DecidableEq, Repr

/-- A llama-index query response: the answer text and the retrieved nodes. -/
structure Response where
  response : String
  source_nodes : List SourceNode
deriving DecidableEq, Repr

/-- The query engine returned by `build_query_engine`: the external `query`
behaviour together with the configuration literals the notebook passes when
building it (`chunk_size=512` on the service context, `similarity_top_k=2`
on `as_query_engine`). -/
structure QueryEngine where
  run : String → Response
  chunk_size : Nat
  similarity_top_k : Nat

/-- Documents are opaque external data. -/
def Document : Type := String

/-- `build_query_engine(documents)`: builds the vector index with
`chunk_size=512` and returns `vector_index.as_query_engine(similarity_top_k=2)`.
The retrieval behaviour over the indexed documents is external and enters as
the parameter `behaviour`. -/
def build_query_engine (documents : List Document)
    (behaviour : List Document → String → Response) : QueryEngine :=
  { run := behaviour documents
    chunk_size := 512
    similarity_top_k := 2 }

/-- The two columns of the test dataframe that the notebook reads
(`test_df["question"]` and `test_df["ground_truth"]`). -/
structure TestDF where
  question : List String
  ground_truth : List String
deriving DecidableEq, Repr

/-- The dict returned by `generate_single_response`. -/
structure SingleResponse where
  answer : String
  contexts : List String
deriving DecidableEq, Repr

/-- `generate_single_response(query_engine, question)`: queries the engine and
returns the answer text and the contents of the source nodes. -/
def generate_single_response (query_engine : QueryEngine) (question : String) :
    SingleResponse :=
  let response := query_engine.run question
  { answer := response.response
    contexts := response.source_nodes.map (fun c => c.node.get_content) }

/-- A column of the dataset dict: either a column of strings or a column of
string lists (the `contexts` column). -/
inductive ColValue where
  | strs : List String → ColValue
  | strLists : List (List String) → ColValue
deriving DecidableEq, Repr

/-- `datasets.Dataset`, as built by `Dataset.from_dict`: named columns in
insertion order. -/
structure Dataset where
  columns : List (String × ColValue)
deriving DecidableEq, Repr

def Dataset.from_dict (d : List (String × ColValue)) : Dataset := ⟨d⟩

def Dataset.columnNames (ds : Dataset) : List String := ds.columns.map Prod.fst

def Dataset.col (ds : Dataset) (name : String) : Option ColValue :=
  (ds.columns.find? (fun p => p.1 == name)).map Prod.snd

/-- `generate_ragas_dataset(query_engine, test_df)`: queries the engine on
every question of the dataframe and assembles the four-column dataset dict. -/
def generate_ragas_dataset (query_engine : QueryEngine) (test_df : TestDF) :
    Dataset :=
  let test_questions := test_df.question
  let responses := test_questions.map
    (fun q => generate_single_response query_engine q)
  let dataset_dict : List (String × ColValue) :=
    [("question", ColValue.strs test_questions),
     ("answer", ColValue.strs (responses.map (fun r => r.answer))),
     ("contexts", ColValue.strLists (responses.map (fun r => r.contexts))),
     ("ground_truth", ColValue.strs test_df.ground_truth)]
  Dataset.from_dict dataset_dict

/-- The question-type distribution keys from
`from ragas.testset.evolutions import simple, reasoning, multi_context`. -/
inductive Evolution where
  | simple
  | reasoning
  | multi_context
deriving DecidableEq, Repr

/-- `distribution = \x7bsimple: 0.5, reasoning: 0.25, multi_context: 0.25\x7d`,
with the float literals read as exact rationals. -/
def distribution : List (Evolution × ℚ) :=
  [(Evolution.simple, 1/2), (Evolution.reasoning, 1/4),
   (Evolution.multi_context, 1/4)]

/-- The `validation_dataset_config` dict of the upload cell. -/
structure ValidationDatasetConfig where
  contextColumnName : String
  questionColumnName : String
  inputVariableNames : List String
  label : String
  outputColumnName : String
  groundTruthColumnName : String
deriving DecidableEq, Repr

def validation_dataset_config : ValidationDatasetConfig :=
  { contextColumnName := "contexts"
    questionColumnName := "question"
    inputVariableNames := ["question"]
    label := "validation"
    outputColumnName := "answer"
    groundTruthColumnName := "ground_truth" }

/-- The `metadata` dict inside `model_config`. -/
structure ModelMetadata where
  top_k : Nat
  chunk_size : Nat
  embeddings : String
deriving DecidableEq, Repr

/-- The `model_config` dict of the upload cell. -/
structure ModelConfig where
  inputVariableNames : List String
  modelType : String
  metadata : ModelMetadata
deriving DecidableEq, Repr

def model_config : ModelConfig :=
  { inputVariableNames := ["question"]
    modelType := "shell"
    metadata := { top_k := 2, chunk_size := 512, embeddings := "OpenAI" } }

/-- The list comprehension
`[generate_single_response(query_engine, q) for q in test_questions]`,
instrumented with the sequence of questions sent to the engine, in the order
the comprehension evaluates them. -/
def run_queries_traced (query_engine : QueryEngine) :
    List String → List SingleResponse × List String
  | [] => ([], [])
  | q :: qs =>
    let r := generate_single_response query_engine q
    let p := run_queries_traced query_engine qs
    (r :: p.1, q :: p.2)

/-- `generate_ragas_dataset` with the engine-query trace made explicit. -/
def generate_ragas_dataset_traced (query_engine : QueryEngine)
    (test_df : TestDF) : Dataset × List String :=
  let p := run_queries_traced query_engine test_df.question
  (Dataset.from_dict
    [("question", ColValue.strs test_df.question),
     ("answer", ColValue.strs (p.1.map (fun r => r.answer))),
     ("contexts", ColValue.strLists (p.1.map (fun r => r.contexts))),
     ("ground_truth", ColValue.strs test_df.ground_truth)], p.2)

/-- String column of a dataset (empty if absent or of the wrong shape). -/
def Dataset.strCol (ds : Dataset) (name : String) : List String :=
  match ds.col name with
  | some (ColValue.strs l) => l
  | _ => []

/-- String-list column of a dataset (empty if absent or of the wrong shape). -/
def Dataset.listCol (ds : Dataset) (name : String) : List (List String) :=
  match ds.col name with
  | some (ColValue.strLists l) => l
  | _ => []

/-- A query engine whose `query` call may raise: the external call either
returns a response or fails with an exception value. -/
structure QueryEngineE where
  run : String → Except String Response

/-- `generate_single_response` over a fallible engine. The notebook has no
`try`/`except`, so the call is a bare bind: a failure is returned as-is. -/
def generate_single_responseE (query_engine : QueryEngineE)
    (question : String) : Except String SingleResponse := do
  let response ← query_engine.run question
  pure { answer := response.response
         contexts := response.source_nodes.map (fun c => c.node.get_content) }

/-- The list comprehension of `generate_ragas_dataset` over a fallible
engine: questions are evaluated in order and the first failure aborts the
comprehension with that exception. -/
def run_queriesE (query_engine : QueryEngineE) :
    List String → Except String (List SingleResponse)
  | [] => pure []
  | q :: qs => do
    let r ← generate_single_responseE query_engine q
    let rs ← run_queriesE query_engine qs
    pure (r :: rs)

/-- `generate_ragas_dataset` over a fallible engine, again with no handler:
any failure of an engine call is the result of the whole function. -/
def generate_ragas_datasetE (query_engine : QueryEngineE) (test_df : TestDF) :
    Except String Dataset := do
  let responses ← run_queriesE query_engine test_df.question
  pure (Dataset.from_dict
    [("question", ColValue.strs test_df.question),
     ("answer", ColValue.strs (responses.map (fun r => r.answer))),
     ("contexts", ColValue.strLists (responses.map (fun r => r.contexts))),
     ("ground_truth", ColValue.strs test_df.ground_truth)])

/-- The script variables `generate_ragas_dataset` can observe: the query
engine and the test dataframe. -/
structure ScriptEnv where
  query_engine : QueryEngine
  test_df : TestDF

/-- `generate_single_response` with the script state threaded explicitly:
the body only reads `env`, mirroring the Python statements, which assign to
no attribute of either argument. -/
def generate_single_responseSt (env : ScriptEnv) (question : String) :
    SingleResponse × ScriptEnv :=
  let response := env.query_engine.run question
  ({ answer := response.response
     contexts := response.source_nodes.map (fun c => c.node.get_content) },
   env)

/-- The list comprehension of `generate_ragas_dataset` with the script state
threaded through every engine call. -/
def run_queriesSt (env : ScriptEnv) :
    List String → List SingleResponse × ScriptEnv
  | [] => ([], env)
  | q :: qs =>
    let p := generate_single_responseSt env q
    let p2 := run_queriesSt p.2 qs
    (p.1 :: p2.1, p2.2)

/-- `generate_ragas_dataset` with the script state threaded explicitly. -/
def generate_ragas_datasetSt (env : ScriptEnv) : Dataset × ScriptEnv :=
  let test_questions := env.test_df.question
  let p := run_queriesSt env test_questions
  (Dataset.from_dict
    [("question", ColValue.strs test_questions),
     ("answer", ColValue.strs (p.1.map (fun r => r.answer))),
     ("contexts", ColValue.strLists (p.1.map (fun r => r.contexts))),
     ("ground_truth", ColValue.strs env.test_df.ground_truth)], p.2)

/-- The fixed question of the single-response demo cell. -/
def question : String :=
  "What are some strategies proposed to enhance the in-context learning capability of language models?"

/-- The observable actions the notebook cells perform, in the order the
cells are written. -/
inductive Event where
  | cloneDataset
  | setEnv (name : String)
  | loadData
  | generateTestset
  | nestAsyncioApply
  | buildEngine
  | query (q : String)
  | packageDataset
  | createClient
  | createProject
  | addDataframe
  | addModel
  | commitProject
  | pushProject
deriving DecidableEq, Repr

/-- Prerequisites cells: clone the dataset repo, set `OPENAI_API_KEY`. -/
def prerequisitesTrace : List Event :=
  [Event.cloneDataset, Event.setEnv ("OPENAI_API_KEY")]

/-- Synthetic test data generation cell: `reader.load_data()` then
`generator.generate_with_llamaindex_docs(...)`. -/
def testsetGenerationTrace : List Event :=
  [Event.loadData, Event.generateTestset]

/-- Building-RAG cells: `nest_asyncio.apply()` at import, then
`build_query_engine(documents)`. -/
def buildingRagTrace : List Event :=
  [Event.nestAsyncioApply, Event.buildEngine]

/-- The demo cell `generate_single_response(query_engine, question)`. -/
def singleResponseDemoTrace : List Event :=
  [Event.query question]

/-- The `generate_ragas_dataset(query_engine, test_df)` cell: the engine
queries recorded by the traced runner, then `Dataset.from_dict`. -/
def generateDatasetTrace (qe : QueryEngine) (df : TestDF) : List Event :=
  ((generate_ragas_dataset_traced qe df).2.map Event.query) ++
    [Event.packageDataset]

/-- Commit-to-Openlayer cells: client, project, dataframe, model, commit,
push, in cell order. -/
def commitToOpenlayerTrace : List Event :=
  [Event.createClient, Event.createProject, Event.addDataframe,
   Event.addModel, Event.commitProject, Event.pushProject]

/-- The whole notebook run: the cell traces in the order the cells appear. -/
def scriptTrace (qe : QueryEngine) (df : TestDF) : List Event :=
  prerequisitesTrace ++ testsetGenerationTrace ++ buildingRagTrace ++
    singleResponseDemoTrace ++ generateDatasetTrace qe df ++
    commitToOpenlayerTrace

/-- A credential the script supplies to an external service. -/
inductive Credential where
  | envVar (name : String)
  | constructorArg (client : String)
deriving DecidableEq, Repr

/-- The credentials an event supplies: `os.environ["OPENAI_API_KEY"] = ...`
and the API-key argument of `openlayer.OpenlayerClient(...)`; no other event
reads or sets a credential. -/
def Event.credentials : Event → List Credential
  | Event.setEnv n => [Credential.envVar n]
  | Event.createClient => [Credential.constructorArg ("OpenlayerClient")]
  | _ => []

/-- All credentials supplied over a trace, in order. -/
def credentialsOf (tr : List Event) : List Credential :=
  tr.foldr (fun e acc => e.credentials ++ acc) []

/-- A concrete query engine with fixed responses, used as a witness input. -/
def qe_fixed : QueryEngine :=
  { run := fun q =>
      { response := "ans " ++ q
        source_nodes := [{ node := { content := "ctx " ++ q } }] }
    chunk_size := 512
    similarity_top_k := 2 }

/-- A second engine: it answers every question of `df_fixed` exactly as
`qe_fixed` does but differs from it on another question. -/
def qe_alt : QueryEngine :=
  { run := fun q =>
      if q = "unasked" then { response := "different", source_nodes := [] }
      else qe_fixed.run q
    chunk_size := 512
    similarity_top_k := 2 }

/-- A concrete two-row test dataframe, used as a witness input. -/
def df_fixed : TestDF :=
  { question := ["q1", "q2"], ground_truth := ["g1", "g2"] }

/-- A concrete fallible engine that fails on `"q2"` and succeeds elsewhere,
used as a witness input. -/
def qe_err : QueryEngineE :=
  { run := fun q =>
      if q = "q2" then Except.error ("boom")
      else Except.ok
        { response := "ans " ++ q
          source_nodes := [{ node := { content := "ctx " ++ q } }] } }

end Openlayer

namespace Openlayer

/-- CLAIM C1. For every query engine and test dataframe,
`generate_ragas_dataset` builds a dataset whose columns are exactly
`question`, `answer`, `contexts`, `ground_truth`: the question column is the
dataframe's question column, the answer and contexts columns are unpacked
from the engine's response to each question, and the ground-truth column is
the dataframe's ground-truth column; no other column is present. -/
theorem generate_ragas_dataset_columns (qe : QueryEngine) (df : TestDF) :
    (generate_ragas_dataset qe df).columnNames =
      ["question", "answer", "contexts", "ground_truth"] ∧
    (generate_ragas_dataset qe df).col ("question") =
      some (ColValue.strs df.question) ∧
    (generate_ragas_dataset qe df).col ("answer") =
      some (ColValue.strs (df.question.map
        (fun q => (generate_single_response qe q).answer))) ∧
    (generate_ragas_dataset qe df).col ("contexts") =
      some (ColValue.strLists (df.question.map
        (fun q => (generate_single_response qe q).contexts))) ∧
    (generate_ragas_dataset qe df).col ("ground_truth") =
      some (ColValue.strs df.ground_truth) := by
  refine ⟨rfl, rfl, ?_, ?_, rfl⟩ <;>
    simp [generate_ragas_dataset, Dataset.col, Dataset.from_dict, List.find?]

/-- CLAIM C9. The question-type distribution assigns 1/2 to `simple`, 1/4 to
`reasoning` and 1/4 to `multi_context`, and the weights sum exactly to 1. -/
theorem distribution_weights :
    distribution = [(Evolution.simple, 1/2), (Evolution.reasoning, 1/4),
      (Evolution.multi_context, 1/4)] ∧
    (distribution.map Prod.snd).sum = 1 := by
  constructor
  · rfl
  · norm_num [distribution]

/-- The traced comprehension computes the mapped responses and queries the
questions in list order. -/
theorem run_queries_traced_eq (qe : QueryEngine) (qs : List String) :
    run_queries_traced qe qs =
      (qs.map (fun q => generate_single_response qe q), qs) := by
  induction qs with
  | nil => rfl
  | cons q qs ih => simp [run_queries_traced, ih]

/-- The traced dataset builder returns the untraced dataset, and its query
trace is the dataframe's question column. -/
theorem generate_ragas_dataset_traced_eq (qe : QueryEngine) (df : TestDF) :
    generate_ragas_dataset_traced qe df =
      (generate_ragas_dataset qe df, df.question) := by
  simp [generate_ragas_dataset_traced, generate_ragas_dataset,
    run_queries_traced_eq]

theorem strCol_answer_eq (qe : QueryEngine) (df : TestDF) :
    (generate_ragas_dataset qe df).strCol ("answer") =
      (df.question.map (fun q => generate_single_response qe q)).map
        (fun r => r.answer) := rfl

theorem listCol_contexts_eq (qe : QueryEngine) (df : TestDF) :
    (generate_ragas_dataset qe df).listCol ("contexts") =
      (df.question.map (fun q => generate_single_response qe q)).map
        (fun r => r.contexts) := rfl

theorem strCol_ground_truth_eq (qe : QueryEngine) (df : TestDF) :
    (generate_ragas_dataset qe df).strCol ("ground_truth") =
      df.ground_truth := rfl

/-- CLAIM C2. For a dataframe with `n` rows, the dataset is row-aligned: the
answer, contexts and ground-truth columns all have `n` entries, the `i`-th
answer and the `i`-th contexts list come from querying the engine with the
`i`-th question, the `i`-th ground-truth entry is the dataframe's `i`-th
ground-truth value, and the engine is queried with exactly the questions of
the dataframe, one by one, in order. -/
theorem generate_ragas_dataset_row_aligned (qe : QueryEngine) (df : TestDF)
    (n i : Nat) (hq : df.question.length = n)
    (hg : df.ground_truth.length = n) :
    ((generate_ragas_dataset qe df).strCol ("answer")).length = n ∧
    ((generate_ragas_dataset qe df).listCol ("contexts")).length = n ∧
    ((generate_ragas_dataset qe df).strCol ("ground_truth")).length = n ∧
    ((generate_ragas_dataset qe df).strCol ("answer"))[i]? =
      (df.question[i]?).map
        (fun q => (generate_single_response qe q).answer) ∧
    ((generate_ragas_dataset qe df).listCol ("contexts"))[i]? =
      (df.question[i]?).map
        (fun q => (generate_single_response qe q).contexts) ∧
    ((generate_ragas_dataset qe df).strCol ("ground_truth"))[i]? =
      df.ground_truth[i]? ∧
    (generate_ragas_dataset_traced qe df).2 = df.question := by
  refine ⟨?_, ?_, ?_, ?_, ?_, ?_, ?_⟩
  · simp [strCol_answer_eq, hq]
  · simp [listCol_contexts_eq, hq]
  · simp [strCol_ground_truth_eq, hg]
  · simp [strCol_answer_eq, List.map_map, Function.comp_def]
  · simp [listCol_contexts_eq, List.map_map, Function.comp_def]
  · simp [strCol_ground_truth_eq]
  · simp [generate_ragas_dataset_traced_eq]

/-- Witness for C2 at a concrete engine, dataframe and row index. -/
theorem generate_ragas_dataset_row_aligned_witness :
    df_fixed.question.length = 2 ∧ df_fixed.ground_truth.length = 2 ∧
    (((generate_ragas_dataset qe_fixed df_fixed).strCol ("answer")).length = 2 ∧
     ((generate_ragas_dataset qe_fixed df_fixed).listCol ("contexts")).length = 2 ∧
     ((generate_ragas_dataset qe_fixed df_fixed).strCol ("ground_truth")).length = 2 ∧
     ((generate_ragas_dataset qe_fixed df_fixed).strCol ("answer"))[0]? =
       (df_fixed.question[0]?).map
         (fun q => (generate_single_response qe_fixed q).answer) ∧
     ((generate_ragas_dataset qe_fixed df_fixed).listCol ("contexts"))[0]? =
       (df_fixed.question[0]?).map
         (fun q => (generate_single_response qe_fixed q).contexts) ∧
     ((generate_ragas_dataset qe_fixed df_fixed).strCol ("ground_truth"))[0]? =
       df_fixed.ground_truth[0]? ∧
     (generate_ragas_dataset_traced qe_fixed df_fixed).2 = df_fixed.question) :=
  ⟨rfl, rfl, generate_ragas_dataset_row_aligned qe_fixed df_fixed 2 0 rfl rfl⟩

/-- A failing engine call makes `generate_single_response` fail with the
same exception. -/
theorem generate_single_responseE_error (qe : QueryEngineE) (q e : String)
    (herr : qe.run q = Except.error e) :
    generate_single_responseE qe q = Except.error e := by
  unfold generate_single_responseE
  rw [herr]
  rfl

/-- A succeeding engine call makes `generate_single_response` return the
unpacked response. -/
theorem generate_single_responseE_ok (qe : QueryEngineE) (q : String)
    (r : Response) (hok : qe.run q = Except.ok r) :
    generate_single_responseE qe q = Except.ok
      { answer := r.response
        contexts := r.source_nodes.map (fun c => c.node.get_content) } := by
  unfold generate_single_responseE
  rw [hok]
  rfl

/-- If every question in `pre` succeeds and `q` fails with `e`, the
comprehension over `pre ++ q :: rest` fails with exactly `e`. -/
theorem run_queriesE_error (qe : QueryEngineE) (q : String) (e : String)
    (pre rest : List String)
    (hpre : ∀ p ∈ pre, ∃ r, qe.run p = Except.ok r)
    (herr : qe.run q = Except.error e) :
    run_queriesE qe (pre ++ q :: rest) = Except.error e := by
  induction pre with
  | nil =>
    show run_queriesE qe (q :: rest) = Except.error e
    unfold run_queriesE
    rw [generate_single_responseE_error qe q e herr]
    rfl
  | cons p ps ih =>
    obtain ⟨r, hr⟩ := hpre p (List.mem_cons_self p ps)
    have ih2 := ih (fun p2 hp2 => hpre p2 (List.mem_cons_of_mem p hp2))
    show run_queriesE qe (p :: (ps ++ q :: rest)) = Except.error e
    unfold run_queriesE
    rw [generate_single_responseE_ok qe p r hr, ih2]
    rfl

/-- CLAIM C3. There is no error handler: when the engine call on question
`q` raises `e` and the questions before `q` succeed, both
`generate_single_response` and `generate_ragas_dataset` return exactly that
failure to their caller, unchanged. -/
theorem errors_propagate_unchanged (qe : QueryEngineE) (df : TestDF)
    (q : String) (e : String) (pre rest : List String)
    (hsplit : df.question = pre ++ q :: rest)
    (hpre : ∀ p ∈ pre, ∃ r, qe.run p = Except.ok r)
    (herr : qe.run q = Except.error e) :
    generate_single_responseE qe q = Except.error e ∧
    generate_ragas_datasetE qe df = Except.error e := by
  constructor
  · simp [generate_single_responseE, herr]
  · simp [generate_ragas_datasetE, hsplit,
      run_queriesE_error qe q e pre rest hpre herr]

/-- Witness for C3: a concrete engine failing on the second question. -/
theorem errors_propagate_unchanged_witness :
    df_fixed.question = ["q1"] ++ "q2" :: [] ∧
    (∀ p ∈ ["q1"], ∃ r, qe_err.run p = Except.ok r) ∧
    qe_err.run ("q2") = Except.error ("boom") ∧
    (generate_single_responseE qe_err ("q2") = Except.error ("boom") ∧
     generate_ragas_datasetE qe_err df_fixed = Except.error ("boom")) :=
  ⟨rfl,
   fun p hp => by
     have hp1 : p = "q1" := by simpa using hp
     subst hp1
     exact ⟨_, rfl⟩,
   rfl,
   errors_propagate_unchanged qe_err df_fixed ("q2") ("boom") ["q1"] []
     rfl
     (fun p hp => by
       have hp1 : p = "q1" := by simpa using hp
       subst hp1
       exact ⟨_, rfl⟩)
     rfl⟩

theorem generate_single_responseSt_eq (env : ScriptEnv) (q : String) :
    generate_single_responseSt env q =
      (generate_single_response env.query_engine q, env) := rfl

theorem run_queriesSt_eq (env : ScriptEnv) (qs : List String) :
    run_queriesSt env qs =
      (qs.map (fun q => generate_single_response env.query_engine q), env) := by
  induction qs with
  | nil => rfl
  | cons q qs ih => simp [run_queriesSt, generate_single_responseSt_eq, ih]

/-- CLAIM C6. Neither function owns or mutates state: with the script state
threaded explicitly, `generate_single_response` and `generate_ragas_dataset`
return the state exactly as they received it, and the dataset they build is
a new value computed from the unchanged inputs. -/
theorem script_components_stateless (env : ScriptEnv) (q : String) :
    (generate_single_responseSt env q).2 = env ∧
    (generate_ragas_datasetSt env).2 = env ∧
    (generate_ragas_datasetSt env).1 =
      generate_ragas_dataset env.query_engine env.test_df := by
  refine ⟨rfl, ?_, ?_⟩
  · simp [generate_ragas_datasetSt, run_queriesSt_eq]
  · simp [generate_ragas_datasetSt, run_queriesSt_eq, generate_ragas_dataset]

/-- Counterexample to C7 as stated: a two-run determinism statement does
hold for `generate_ragas_dataset` once the engine's responses on the
dataframe's questions are fixed.  `qe_fixed` and `qe_alt` are observably
different engines (they disagree on the question `"unasked"`), yet because
they agree on every question of `df_fixed`, the two runs build the same
dataset. -/
theorem no_determinism_refuted :
    qe_fixed.run ("unasked") ≠ qe_alt.run ("unasked") ∧
    generate_ragas_dataset qe_fixed df_fixed =
      generate_ragas_dataset qe_alt df_fixed := by
  constructor
  · decide
  · decide

/-- CLAIM C7, amended. The end-to-end outputs of the notebook depend on
external model calls, but `generate_ragas_dataset` itself is deterministic
given the engine's responses: any two engines that agree on every question
of the dataframe produce equal datasets. -/
theorem generate_ragas_dataset_deterministic (qe qe2 : QueryEngine)
    (df : TestDF) (h : ∀ q ∈ df.question, qe.run q = qe2.run q) :
    generate_ragas_dataset qe df = generate_ragas_dataset qe2 df := by
  have hmap : df.question.map (fun q => generate_single_response qe q) =
      df.question.map (fun q => generate_single_response qe2 q) :=
    List.map_congr_left (fun q hq => by
      simp [generate_single_response, h q hq])
  simp [generate_ragas_dataset, hmap]

/-- Witness for the amended C7 at the two concrete engines. -/
theorem generate_ragas_dataset_deterministic_witness :
    (∀ q ∈ df_fixed.question, qe_fixed.run q = qe_alt.run q) ∧
    generate_ragas_dataset qe_fixed df_fixed =
      generate_ragas_dataset qe_alt df_fixed :=
  ⟨by decide,
   generate_ragas_dataset_deterministic qe_fixed qe_alt df_fixed (by decide)⟩

/-- CLAIM C10. The uploaded configuration matches the pipeline: the
`model_config` metadata `top_k` and `chunk_size` equal the
`similarity_top_k` and `chunk_size` literals of `build_query_engine`, and
the column names referenced by `validation_dataset_config` are exactly the
columns of the dataset built by `generate_ragas_dataset`. -/
theorem uploaded_config_consistent (docs : List Document)
    (behaviour : List Document → String → Response)
    (qe : QueryEngine) (df : TestDF) :
    model_config.metadata.top_k =
      (build_query_engine docs behaviour).similarity_top_k ∧
    model_config.metadata.chunk_size =
      (build_query_engine docs behaviour).chunk_size ∧
    (generate_ragas_dataset qe df).columnNames =
      [validation_dataset_config.questionColumnName,
       validation_dataset_config.outputColumnName,
       validation_dataset_config.contextColumnName,
       validation_dataset_config.groundTruthColumnName] ∧
    validation_dataset_config.inputVariableNames =
      [validation_dataset_config.questionColumnName] := by
  exact ⟨rfl, rfl, rfl, rfl⟩

/-- The notebook run, flattened: the fixed cell actions around the
dataframe's queries, in cell order. -/
theorem scriptTrace_eq (qe : QueryEngine) (df : TestDF) :
    scriptTrace qe df =
      [Event.cloneDataset, Event.setEnv ("OPENAI_API_KEY"), Event.loadData,
       Event.generateTestset, Event.nestAsyncioApply, Event.buildEngine,
       Event.query question] ++ df.question.map Event.query ++
      [Event.packageDataset, Event.createClient, Event.createProject,
       Event.addDataframe, Event.addModel, Event.commitProject,
       Event.pushProject] := by
  simp [scriptTrace, prerequisitesTrace, testsetGenerationTrace,
    buildingRagTrace, singleResponseDemoTrace, generateDatasetTrace,
    commitToOpenlayerTrace, generate_ragas_dataset_traced_eq]

/-- CLAIM C4. The script is linear and its phases occur in the fixed order:
the full run trace is the cell actions in cell order; in particular
`load_data` (index 2) precedes `build_query_engine` (index 5), which
precedes every dataset query, the packaging (`Dataset.from_dict`, index
`7 + n`) follows all `n` queries, and the upload push (index `13 + n`)
follows the packaging. -/
theorem script_phase_order (qe : QueryEngine) (df : TestDF) :
    scriptTrace qe df =
      [Event.cloneDataset, Event.setEnv ("OPENAI_API_KEY"), Event.loadData,
       Event.generateTestset, Event.nestAsyncioApply, Event.buildEngine,
       Event.query question] ++ df.question.map Event.query ++
      [Event.packageDataset, Event.createClient, Event.createProject,
       Event.addDataframe, Event.addModel, Event.commitProject,
       Event.pushProject] ∧
    (scriptTrace qe df).indexOf Event.loadData = 2 ∧
    (scriptTrace qe df).indexOf Event.buildEngine = 5 ∧
    (scriptTrace qe df).indexOf Event.packageDataset =
      7 + df.question.length ∧
    (scriptTrace qe df).indexOf Event.pushProject =
      13 + df.question.length := by
  have h := scriptTrace_eq qe df
  have hq : Event.packageDataset ∉ df.question.map Event.query := by
    simp
  have hp : Event.pushProject ∉ df.question.map Event.query := by
    simp
  refine ⟨h, ?_, ?_, ?_, ?_⟩
  · rw [h, List.indexOf_append_of_mem (by simp),
      List.indexOf_append_of_mem (by simp)]
    decide
  · rw [h, List.indexOf_append_of_mem (by simp),
      List.indexOf_append_of_mem (by simp)]
    decide
  · rw [h, List.indexOf_append_of_not_mem (by simp [hq])]
    have h6 : List.indexOf Event.packageDataset
        [Event.packageDataset, Event.createClient, Event.createProject,
         Event.addDataframe, Event.addModel, Event.commitProject,
         Event.pushProject] = 0 := by decide
    rw [h6]
    simp only [List.length_append, List.length_map, List.length_cons,
      List.length_nil]
    omega
  · rw [h, List.indexOf_append_of_not_mem (by simp [hp])]
    have h6 : List.indexOf Event.pushProject
        [Event.packageDataset, Event.createClient, Event.createProject,
         Event.addDataframe, Event.addModel, Event.commitProject,
         Event.pushProject] = 6 := by decide
    rw [h6]
    simp only [List.length_append, List.length_map, List.length_cons,
      List.length_nil]
    omega

/-- CLAIM C5. The script supplies exactly two credentials, in this order:
the `OPENAI_API_KEY` environment variable and the API key passed to the
`OpenlayerClient` constructor; no other event of the run carries one. -/
theorem script_two_credentials (qe : QueryEngine) (df : TestDF) :
    credentialsOf (scriptTrace qe df) =
      [Credential.envVar ("OPENAI_API_KEY"),
       Credential.constructorArg ("OpenlayerClient")] := by
  rw [scriptTrace_eq]
  induction df.question with
  | nil => rfl
  | cons q qs ih =>
    simpa [credentialsOf, Event.credentials] using ih

/-- CLAIM C8. Execution is sequential: the event-loop patch
`nest_asyncio.apply` happens exactly once in the whole run, and the engine
interaction of the dataset build is a single ordered sequence — running the
comprehension on `qs1 ++ qs2` is running it on `qs1` to completion and then
on `qs2`, both for the responses produced and for the queries issued. -/
theorem script_sequential (qe : QueryEngine) (df : TestDF)
    (qs1 qs2 : List String) :
    (scriptTrace qe df).count Event.nestAsyncioApply = 1 ∧
    run_queries_traced qe (qs1 ++ qs2) =
      ((run_queries_traced qe qs1).1 ++ (run_queries_traced qe qs2).1,
       (run_queries_traced qe qs1).2 ++ (run_queries_traced qe qs2).2) ∧
    (generate_ragas_dataset_traced qe df).2 = df.question := by
  refine ⟨?_, ?_, ?_⟩
  · rw [scriptTrace_eq]
    have hq : Event.nestAsyncioApply ∉ df.question.map Event.query := by
      simp
    simp [List.count_append, List.count_eq_zero.mpr hq]
  · simp [run_queries_traced_eq]
  · simp [generate_ragas_dataset_traced_eq]

end Openlayer
